import Mathlib

/-!
Shallow embedding of the lifestream-backend real-time blood-donation
coordination core, translated from the TypeScript source:

* request controller (createRequest, getActiveRequests, updateRequestStatus,
  cancelRequest, respondToRequest, selectDonor),
* socket handlers (auth middleware, create-request, donor-response,
  join-conversation, send-message, mark-messages-read),
* chat handlers (setupChatHandlers join-conversation / send-message),
* HTTP auth middleware.

The relational store is modelled as lists of rows; SQL statements become
list filters, maps and appends.  The storage constraints that the embedded
queries rely on (NOT NULL, CHECK units_needed > 0, CHECK on status columns,
UNIQUE(request_id, donor_id) on donor_responses) are taken from the schema
in the repository README and are honoured by the insert functions.
-/

namespace LifeStream

/-- Status column of blood_requests, CHECK (status IN
(active, fulfilled, cancelled, expired)). -/
inductive RequestStatus
  | active | fulfilled | cancelled | expired
deriving DecidableEq, Repr

/-- Status column of donor_responses, CHECK (status IN
(pending, accepted, rejected)). -/
inductive ResponseStatus
  | pending | accepted | rejected
deriving DecidableEq, Repr

/-- Urgency column of blood_requests, CHECK (urgency IN
(critical, high, medium, low)). -/
inductive Urgency
  | critical | high | medium | low
deriving DecidableEq, Repr

/-- user_type column of users, CHECK (user_type IN (donor, recipient, both)). -/
inductive UserType
  | donor | recipient | both
deriving DecidableEq, Repr

/-- Row of the users table (columns the embedded queries touch). -/
structure UserRow where
  id : Nat
  email : String
  userType : UserType
deriving DecidableEq, Repr

/-- Row of the blood_requests table.  Location, additional_notes,
is_emergency and updated_at are omitted: no embedded claim reads them. -/
structure BloodRequest where
  id : Nat
  requesterId : Nat
  patientName : String
  bloodType : String
  unitsNeeded : Int
  hospital : String
  urgency : Urgency
  status : RequestStatus
  createdAt : Nat
deriving DecidableEq, Repr

/-- Row of the donor_responses table (availability omitted). -/
structure DonorResponse where
  id : Nat
  requestId : Nat
  donorId : Nat
  message : String
  status : ResponseStatus
deriving DecidableEq, Repr

/-- Row of the donations table. -/
structure Donation where
  requestId : Nat
  donorId : Nat
  status : String
deriving DecidableEq, Repr

/-- Row of the chat_messages table. -/
structure ChatMessage where
  id : Nat
  conversationId : String
  text : String
  senderId : Nat
  senderType : String
  requestId : Nat
  timestamp : Nat
  readStatus : Bool
  readAt : Option Nat
deriving DecidableEq, Repr

/-- The relational store: one list of rows per table. -/
structure DB where
  users : List UserRow
  requests : List BloodRequest
  responses : List DonorResponse
  donations : List Donation
  messages : List ChatMessage
deriving DecidableEq, Repr

/-- The resolved identity attached to an authenticated socket
(socket.user in the source). -/
structure SocketUser where
  id : Nat
  email : String
  userType : UserType
deriving DecidableEq, Repr

/-! ## JavaScript falsiness for validation checks

The controller guards of the form `if (!patientName || ...)` treat a missing
field, an empty string and the number 0 as falsy. -/

/-- JS falsiness of an optional string field: absent or empty. -/
def jsFalsyStr : Option String → Bool
  | none => true
  | some s => s = ""

/-- JS falsiness of an optional numeric field: absent or zero. -/
def jsFalsyNum : Option Int → Bool
  | none => true
  | some n => n = 0

/-! ## CreateRequest -/

/-- Request body of createRequest; fields are optional because the client
may omit any of them. -/
structure CreateBody where
  patientName : Option String
  bloodType : Option String
  unitsNeeded : Option Int
  hospital : Option String
  urgency : Urgency
deriving DecidableEq, Repr

/-- Outcome of a create-request operation.  validationError is the HTTP 400
emitted before any persistence call; storeError is the catch branch
(HTTP 500 / socket request-error) after a failed insert. -/
inductive CreateOutcome
  | validationError
  | created (requestId : Nat)
  | storeError
deriving DecidableEq, Repr

/-- INSERT INTO blood_requests honouring the schema constraints
NOT NULL on patient_name, blood_type, units_needed, hospital and
CHECK (units_needed > 0) (schema in the repository README). -/
def insertBloodRequest (db : DB) (rid uid now : Nat) (body : CreateBody) :
    Except Unit DB :=
  match body.patientName, body.bloodType, body.unitsNeeded, body.hospital with
  | some p, some bt, some u, some h =>
      if 0 < u then
        Except.ok { db with requests := db.requests ++
          [⟨rid, uid, p, bt, u, h, body.urgency, RequestStatus.active, now⟩] }
      else Except.error ()
  | _, _, _, _ => Except.error ()

/-- requestController.createRequest (HTTP): reject with 400 when
patientName, bloodType, unitsNeeded or hospital is falsy, else insert. -/
def createRequestHttp (db : DB) (uid rid now : Nat) (body : CreateBody) :
    CreateOutcome × DB :=
  if jsFalsyStr body.patientName || jsFalsyStr body.bloodType ||
     jsFalsyNum body.unitsNeeded || jsFalsyStr body.hospital then
    (CreateOutcome.validationError, db)
  else
    match insertBloodRequest db rid uid now body with
    | Except.ok db2 => (CreateOutcome.created rid, db2)
    | Except.error _ => (CreateOutcome.storeError, db)

/-- Socket create-request handler: no validation at all, the insert is
attempted directly; any storage rejection surfaces as request-error. -/
def createRequestSocket (db : DB) (su : SocketUser) (rid now : Nat)
    (body : CreateBody) : CreateOutcome × DB :=
  match insertBloodRequest db rid su.id now body with
  | Except.ok db2 => (CreateOutcome.created rid, db2)
  | Except.error _ => (CreateOutcome.storeError, db)

/-! ## GetActiveRequests -/

/-- The CASE urgency WHEN ... END rank used in the ORDER BY clause of
getActiveRequests: critical 1, high 2, medium 3, low 4. -/
def urgencyRank : Urgency → Nat
  | Urgency.critical => 1
  | Urgency.high => 2
  | Urgency.medium => 3
  | Urgency.low => 4

/-- The row order produced by ORDER BY CASE urgency END, created_at DESC:
strictly smaller urgency rank first, ties broken by larger created_at. -/
def reqLE (a b : BloodRequest) : Prop :=
  urgencyRank a.urgency < urgencyRank b.urgency ∨
    (urgencyRank a.urgency = urgencyRank b.urgency ∧ b.createdAt ≤ a.createdAt)

instance : DecidableRel reqLE := fun a b => by
  unfold reqLE; infer_instance

instance : IsTotal BloodRequest reqLE where
  total a b := by
    rcases Nat.lt_trichotomy (urgencyRank a.urgency) (urgencyRank b.urgency) with h | h | h
    · exact Or.inl (Or.inl h)
    · rcases Nat.le_total b.createdAt a.createdAt with h2 | h2
      · exact Or.inl (Or.inr ⟨h, h2⟩)
      · exact Or.inr (Or.inr ⟨h.symm, h2⟩)
    · exact Or.inr (Or.inl h)

instance : IsTrans BloodRequest reqLE where
  trans a b c hab hbc := by
    rcases hab with hab | ⟨hab, hab2⟩ <;> rcases hbc with hbc | ⟨hbc, hbc2⟩
    · exact Or.inl (Nat.lt_trans hab hbc)
    · exact Or.inl (hbc ▸ hab)
    · exact Or.inl (hab ▸ hbc)
    · exact Or.inr ⟨hab.trans hbc, Nat.le_trans hbc2 hab2⟩

/-- The WHERE clause of requestController.getActiveRequests: rows of
blood_requests with status active, joined to users on requester_id,
optionally filtered by bloodType and urgency. -/
def activeRequestRows (db : DB) (bloodType : Option String)
    (urgency : Option Urgency) : List BloodRequest :=
  db.requests.filter fun r =>
    r.status = RequestStatus.active &&
    db.users.any (fun u => u.id = r.requesterId) &&
    (match bloodType with
     | none => true
     | some bt => r.bloodType = bt) &&
    (match urgency with
     | none => true
     | some u => r.urgency = u)

/-- The full getActiveRequests result: WHERE rows, ORDER BY, OFFSET, LIMIT. -/
def getActiveRequests (db : DB) (bloodType : Option String)
    (urgency : Option Urgency) (lim off : Nat) : List BloodRequest :=
  (((activeRequestRows db bloodType urgency).insertionSort reqLE).drop
    off).take lim

/-! ## RespondToRequest -/

/-- Outcome of a respond-to-request operation.  notFound is the 404 branch
(no active request with that id); duplicateResponse is the HTTP 400
already-responded branch; storeError is the catch branch (HTTP 500 /
socket response-error) after a failed insert. -/
inductive RespondOutcome
  | notFound
  | duplicateResponse
  | responded (responseId : Nat)
  | storeError
deriving DecidableEq, Repr

/-- INSERT INTO donor_responses honouring UNIQUE(request_id, donor_id)
from the schema in the repository README: the insert is rejected when a
row with the same (request_id, donor_id) pair already exists. -/
def insertDonorResponse (db : DB) (respId requestId donorId : Nat)
    (message : String) : Except Unit DB :=
  if db.responses.any fun dr =>
      dr.requestId = requestId && dr.donorId = donorId then
    Except.error ()
  else
    Except.ok { db with responses := db.responses ++
      [⟨respId, requestId, donorId, message, ResponseStatus.pending⟩] }

/-- requestController.respondToRequest (HTTP): 404 when no active request
with that id exists, 400 when the donor already responded, else insert a
pending response. -/
def respondToRequestHttp (db : DB) (donorId requestId respId : Nat)
    (message : String) : RespondOutcome × DB :=
  if (db.requests.filter fun r =>
      r.id = requestId && r.status = RequestStatus.active).isEmpty then
    (RespondOutcome.notFound, db)
  else if !(db.responses.filter fun dr =>
      dr.requestId = requestId && dr.donorId = donorId).isEmpty then
    (RespondOutcome.duplicateResponse, db)
  else
    match insertDonorResponse db respId requestId donorId message with
    | Except.ok db2 => (RespondOutcome.responded respId, db2)
    | Except.error _ => (RespondOutcome.storeError, db)

/-- Socket donor-response handler: checks only that an active request with
that id exists, then inserts directly; there is no application-level
duplicate check, so a duplicate insert is rejected by the storage
uniqueness constraint and surfaces as the generic response-error. -/
def donorResponseSocket (db : DB) (su : SocketUser) (requestId respId : Nat)
    (message : String) : RespondOutcome × DB :=
  if (db.requests.filter fun r =>
      r.id = requestId && r.status = RequestStatus.active).isEmpty then
    (RespondOutcome.notFound, db)
  else
    match insertDonorResponse db respId requestId su.id message with
    | Except.ok db2 => (RespondOutcome.responded respId, db2)
    | Except.error _ => (RespondOutcome.storeError, db)

/-! ## UpdateRequestStatus and CancelRequest -/

/-- Outcome of updateRequestStatus / cancelRequest. -/
inductive UpdateOutcome
  | invalidStatus
  | notFoundOrUnauthorized
  | updated
deriving DecidableEq, Repr

/-- The validStatuses.includes check of updateRequestStatus: parse the raw
status string from the body. -/
def parseStatus : String → Option RequestStatus
  | "active" => some RequestStatus.active
  | "fulfilled" => some RequestStatus.fulfilled
  | "cancelled" => some RequestStatus.cancelled
  | "expired" => some RequestStatus.expired
  | _ => none

/-- requestController.updateRequestStatus: 400 for an unknown status value,
404 when no request with that id is owned by the caller, else
UPDATE blood_requests SET status WHERE id AND requester_id.  The update
has no guard on the current status. -/
def updateRequestStatus (db : DB) (userId requestId : Nat)
    (status : String) : UpdateOutcome × DB :=
  match parseStatus status with
  | none => (UpdateOutcome.invalidStatus, db)
  | some st =>
    if (db.requests.filter fun r =>
        r.id = requestId && r.requesterId = userId).isEmpty then
      (UpdateOutcome.notFoundOrUnauthorized, db)
    else
      (UpdateOutcome.updated,
       { db with requests := db.requests.map fun r =>
          if r.id = requestId && r.requesterId = userId then
            { r with status := st }
          else r })

/-- requestController.cancelRequest: UPDATE blood_requests SET status =
cancelled WHERE id AND requester_id, 404 when no row matched.  No guard
on the current status. -/
def cancelRequest (db : DB) (userId requestId : Nat) : UpdateOutcome × DB :=
  if (db.requests.filter fun r =>
      r.id = requestId && r.requesterId = userId).isEmpty then
    (UpdateOutcome.notFoundOrUnauthorized, db)
  else
    (UpdateOutcome.updated,
     { db with requests := db.requests.map fun r =>
        if r.id = requestId && r.requesterId = userId then
          { r with status := RequestStatus.cancelled }
        else r })

/-! ## SelectDonor -/

/-- Outcome of selectDonor.  missingIds is the 400 required-fields branch;
notFoundOrUnauthorized the 404 for a request not owned by the caller;
invalidState the 400 for a non-active request; invalidDonor the 400 for a
missing pending response. -/
inductive SelectOutcome
  | missingIds
  | notFoundOrUnauthorized
  | invalidState
  | invalidDonor
  | selected
deriving DecidableEq, Repr

/-- The single map applied to donor_responses by the two sequential
UPDATE statements inside the selectDonor transaction: the response of the
chosen donor becomes accepted; every other still-pending response to the
same request becomes rejected.  The first UPDATE only touches rows of the
chosen donor, so the composition of the two statements is this map. -/
def applySelection (requestId donorId : Nat) (dr : DonorResponse) :
    DonorResponse :=
  if dr.requestId = requestId && dr.donorId = donorId then
    { dr with status := ResponseStatus.accepted }
  else if dr.requestId = requestId && dr.donorId ≠ donorId &&
      dr.status = ResponseStatus.pending then
    { dr with status := ResponseStatus.rejected }
  else dr

/-- requestController.selectDonor.  The guards run in source order:
missing ids (JS falsiness of the numeric ids, so id 0 counts as missing),
then ownership via SELECT WHERE id AND requester_id, then status of the
first matched row, then the pending-response check joined against users
with user_type IN (donor, both).  On success the four statements of the
transaction are applied together. -/
def selectDonor (db : DB) (userId requestId donorId : Nat) :
    SelectOutcome × DB :=
  if userId = 0 || donorId = 0 then (SelectOutcome.missingIds, db)
  else
    match db.requests.filter fun r =>
        r.id = requestId && r.requesterId = userId with
    | [] => (SelectOutcome.notFoundOrUnauthorized, db)
    | r :: _ =>
      if r.status ≠ RequestStatus.active then (SelectOutcome.invalidState, db)
      else if (db.responses.filter fun dr =>
          dr.requestId = requestId && dr.donorId = donorId &&
          dr.status = ResponseStatus.pending &&
          db.users.any fun u =>
            u.id = dr.donorId &&
            (u.userType = UserType.donor ||
             u.userType = UserType.both)).isEmpty then
        (SelectOutcome.invalidDonor, db)
      else
        (SelectOutcome.selected,
         { db with
           responses := db.responses.map (applySelection requestId donorId),
           requests := db.requests.map fun r2 =>
            if r2.id = requestId then
              { r2 with status := RequestStatus.fulfilled }
            else r2,
           donations := db.donations ++ [⟨requestId, donorId, "scheduled"⟩] })

/-! ## Identity resolution (HTTP middleware and socket handshake) -/

/-- A bearer credential as seen by jwt.verify: either malformed (bad
signature or not a token at all) or well signed, carrying a user id and an
expiry state. -/
inductive Cred
  | malformed
  | signed (userId : Nat) (expired : Bool)
deriving DecidableEq, Repr

/-- jwt.verify: a well-signed, unexpired credential yields its payload id;
everything else throws. -/
def jwtVerify : Cred → Option Nat
  | Cred.malformed => none
  | Cred.signed uid expired => if expired then none else some uid

/-- Outcome of an authentication attempt. -/
inductive AuthOutcome
  | missingCredential
  | invalidCredential
  | unknownIdentity
  | authenticated (uid : Nat)
deriving DecidableEq, Repr

/-- authMiddleware (HTTP): reject when the Authorization header is absent,
reject when jwt.verify throws, otherwise set req.user straight from the
decoded payload.  There is no lookup against the users table. -/
def authMiddlewareHttp (cred : Option Cred) : AuthOutcome :=
  match cred with
  | none => AuthOutcome.missingCredential
  | some c =>
    match jwtVerify c with
    | none => AuthOutcome.invalidCredential
    | some uid => AuthOutcome.authenticated uid

/-- io.use socket auth middleware: reject when the handshake token is
absent or jwt.verify throws, then SELECT the user by the decoded id and
reject with user-not-found when the row is missing. -/
def socketAuth (db : DB) (cred : Option Cred) : AuthOutcome :=
  match cred with
  | none => AuthOutcome.missingCredential
  | some c =>
    match jwtVerify c with
    | none => AuthOutcome.invalidCredential
    | some uid =>
      if db.users.any fun u => u.id = uid then AuthOutcome.authenticated uid
      else AuthOutcome.unknownIdentity

/-! ## Chat subsystem -/

/-- Timestamp-ascending row order of ORDER BY cm.timestamp ASC. -/
def tsLE (a b : ChatMessage) : Prop := a.timestamp ≤ b.timestamp

instance : DecidableRel tsLE := fun a b => by
  unfold tsLE; infer_instance

instance : IsTotal ChatMessage tsLE where
  total a b := Nat.le_total a.timestamp b.timestamp

instance : IsTrans ChatMessage tsLE where
  trans _ _ _ hab hbc := Nat.le_trans hab hbc

/-- getChatHistory in socketHandlers.ts: messages of the conversation
ORDER BY timestamp ASC LIMIT 100. -/
def getChatHistory (db : DB) (conversationId : String) : List ChatMessage :=
  (((db.messages.filter fun m =>
      m.conversationId = conversationId).insertionSort tsLE).take 100)

/-- getChatHistory in the chatHandlers variant: LEFT JOIN against users
keeps every message row; ORDER BY timestamp ASC LIMIT 200. -/
def getChatHistoryChat (db : DB) (conversationId : String) :
    List ChatMessage :=
  (((db.messages.filter fun m =>
      m.conversationId = conversationId).insertionSort tsLE).take 200)

/-- Payload of the join-conversation event (userId after parseInt). -/
structure JoinPayload where
  conversationId : String
  userId : Nat
  requestId : Nat
deriving DecidableEq, Repr

/-- Outcome of a join-conversation handler.  joined carries the replayed
history and means the socket was added to the room. -/
inductive JoinOutcome
  | unauthorizedJoin
  | accessDenied
  | joined (history : List ChatMessage)
deriving DecidableEq, Repr

/-- join-conversation handler in socketHandlers.ts: the only guard is that
the payload userId equals the socket identity; the socket then joins the
room and receives the history.  There is no conversation-access check. -/
def joinConversationMain (db : DB) (su : SocketUser) (p : JoinPayload) :
    JoinOutcome :=
  if su.id ≠ p.userId then JoinOutcome.unauthorizedJoin
  else JoinOutcome.joined (getChatHistory db p.conversationId)

/-- The status list of the access check in the setupChatHandlers
join-conversation: dr.status IN (accepted, pending, completed).  The
value completed can never occur under the CHECK constraint on the status
column, so the test is equivalent to excluding rejected. -/
def chatJoinResponderOk : ResponseStatus → Bool
  | ResponseStatus.accepted => true
  | ResponseStatus.pending => true
  | ResponseStatus.rejected => false

/-- join-conversation handler in setupChatHandlers: identity guard, then
the access query (requester of the request, or donor with a response whose
status passes chatJoinResponderOk), then join and history replay. -/
def joinConversationChat (db : DB) (su : SocketUser) (p : JoinPayload) :
    JoinOutcome :=
  if su.id ≠ p.userId then JoinOutcome.unauthorizedJoin
  else if db.requests.any fun r =>
      r.id = p.requestId &&
      (r.requesterId = p.userId ||
       db.responses.any fun dr =>
        dr.requestId = r.id && dr.donorId = p.userId &&
        chatJoinResponderOk dr.status) then
    JoinOutcome.joined (getChatHistoryChat db p.conversationId)
  else JoinOutcome.accessDenied

/-- Payload of the send-message event (ids after parseInt). -/
structure SendPayload where
  conversationId : String
  message : String
  senderId : Nat
  senderType : String
  requestId : Nat
  timestamp : Nat
deriving DecidableEq, Repr

/-- The JS String.prototype.trim used by the blank-message guard: strip
leading and trailing whitespace. -/
def jsTrim (s : String) : String :=
  String.mk
    (((s.data.dropWhile fun c => c.isWhitespace).reverse.dropWhile
      fun c => c.isWhitespace).reverse)

/-- Outcome of a send-message handler. -/
inductive SendOutcome
  | unauthorizedSend
  | accessDenied
  | emptyMessage
  | sent (messageId : Nat)
deriving DecidableEq, Repr

/-- saveMessage: INSERT INTO chat_messages with read_status false. -/
def saveMessage (db : DB) (newId : Nat) (p : SendPayload) (text : String) :
    DB :=
  { db with messages := db.messages ++
    [⟨newId, p.conversationId, text, p.senderId, p.senderType,
      p.requestId, p.timestamp, false, none⟩] }

/-- send-message handler in socketHandlers.ts: the only guard is that the
payload senderId equals the socket identity; the message is then persisted
and broadcast.  There is no conversation-access check. -/
def sendMessageMain (db : DB) (su : SocketUser) (p : SendPayload)
    (newId : Nat) : SendOutcome × DB :=
  if su.id ≠ p.senderId then (SendOutcome.unauthorizedSend, db)
  else (SendOutcome.sent newId, saveMessage db newId p p.message)

/-- send-message handler in setupChatHandlers: identity guard, blank
message guard (trim then JS falsiness), then the access query (requester
or donor with a response of any status), then persist the trimmed text. -/
def sendMessageChat (db : DB) (su : SocketUser) (p : SendPayload)
    (newId : Nat) : SendOutcome × DB :=
  if su.id ≠ p.senderId then (SendOutcome.unauthorizedSend, db)
  else if jsTrim p.message = "" then (SendOutcome.emptyMessage, db)
  else if db.requests.any fun r =>
      r.id = p.requestId &&
      (r.requesterId = p.senderId ||
       db.responses.any fun dr =>
        dr.requestId = r.id && dr.donorId = p.senderId) then
    (SendOutcome.sent newId, saveMessage db newId p (jsTrim p.message))
  else (SendOutcome.accessDenied, db)

/-- markMessagesAsRead: UPDATE chat_messages SET read_status = true,
read_at = NOW() WHERE id = ANY(messageIds). -/
def markMessagesRead (db : DB) (messageIds : List Nat) (now : Nat) : DB :=
  { db with messages := db.messages.map fun m =>
      if m.id ∈ messageIds then
        { m with readStatus := true, readAt := some now }
      else m }

/-- mark-messages-read handler in socketHandlers.ts: the socket user is
never consulted; the update runs on whatever ids the payload carries. -/
def markMessagesReadHandler (db : DB) (su : SocketUser)
    (messageIds : List Nat) (now : Nat) : DB :=
  markMessagesRead db messageIds now

/-! ## Concrete sample rows used by witnesses and counterexamples -/

/-- A store with no rows at all. -/
def dbEmpty : DB := ⟨[], [], [], [], []⟩

/-- An authenticated donor session for user 2. -/
def userD : SocketUser := ⟨2, "b@x", UserType.donor⟩

/-! ## Theorems -/

/-- C9: every list returned by getActiveRequests is sorted by urgency rank
ascending (critical first) and, within equal urgency, by creation time
descending: each row is related to every later row by that order. -/
theorem getActiveRequests_sorted (db : DB) (bt : Option String)
    (u : Option Urgency) (lim off : Nat) :
    List.Pairwise (fun a b =>
      urgencyRank a.urgency < urgencyRank b.urgency ∨
        (urgencyRank a.urgency = urgencyRank b.urgency ∧
          b.createdAt ≤ a.createdAt))
      (getActiveRequests db bt u lim off) := by
  have hs : List.Sorted reqLE
      ((activeRequestRows db bt u).insertionSort reqLE) :=
    List.sorted_insertionSort reqLE _
  exact List.Pairwise.sublist
    ((List.take_sublist _ _).trans (List.drop_sublist _ _)) hs

/-- C10: the mark-messages-read handler flips read_status and read_at on
every stored message whose id is listed, and its result does not depend on
which authenticated session invoked it: no participation check exists. -/
theorem markMessagesRead_no_access_check (db : DB) (su : SocketUser)
    (ids : List Nat) (now : Nat) :
    (∀ m ∈ (markMessagesReadHandler db su ids now).messages,
       m.id ∈ ids → m.readStatus = true ∧ m.readAt = some now) ∧
    (∀ su2 : SocketUser,
       markMessagesReadHandler db su ids now =
       markMessagesReadHandler db su2 ids now) := by
  constructor
  · intro m hm hid
    simp only [markMessagesReadHandler, markMessagesRead, List.mem_map] at hm
    obtain ⟨m0, hm0, rfl⟩ := hm
    by_cases h : m0.id ∈ ids
    · simp [h]
    · simp only [if_neg h] at hid ⊢
      exact absurd hid h
  · intro su2
    rfl

/-- Witness for markMessagesRead_no_access_check at a store holding one
message with id 5, marking [5] as user 2. -/
theorem markMessagesRead_no_access_check_witness :
    ∀ m ∈ (markMessagesReadHandler
        ⟨[], [], [], [], [⟨5, "c", "t", 1, "donor", 1, 0, false, none⟩]⟩
        userD [5] 9).messages,
      m.id ∈ [5] → m.readStatus = true ∧ m.readAt = some 9 :=
  (markMessagesRead_no_access_check
    ⟨[], [], [], [], [⟨5, "c", "t", 1, "donor", 1, 0, false, none⟩]⟩
    userD [5] 9).1

/-- C6, counterexample to the claim as stated: a structurally valid,
unexpired credential for user id 7 passes the HTTP middleware although no
account with id 7 exists in the store, while the socket handshake rejects
the same credential with the user-not-found error. -/
theorem authMiddleware_no_user_lookup_counterexample :
    authMiddlewareHttp (some (Cred.signed 7 false)) =
      AuthOutcome.authenticated 7 ∧
    dbEmpty.users = [] ∧
    socketAuth dbEmpty (some (Cred.signed 7 false)) =
      AuthOutcome.unknownIdentity := by
  refine ⟨rfl, rfl, ?_⟩
  decide

/-- C6, amended: the socket handshake rejects a valid credential whose
identity has no account with UnknownIdentity, but the HTTP middleware
never consults the persistence layer and authenticates any structurally
valid, unexpired credential. -/
theorem authMiddleware_vs_socketAuth (db : DB) (uid : Nat)
    (hno : ∀ u ∈ db.users, u.id ≠ uid) :
    socketAuth db (some (Cred.signed uid false)) =
      AuthOutcome.unknownIdentity ∧
    authMiddlewareHttp (some (Cred.signed uid false)) =
      AuthOutcome.authenticated uid := by
  refine ⟨?_, rfl⟩
  simp only [socketAuth, jwtVerify, if_false, Bool.false_eq_true]
  have : ¬ db.users.any (fun u => u.id = uid) = true := by
    simp only [List.any_eq_true, decide_eq_true_eq, not_exists]
    intro u
    intro h
    exact absurd h.2 (hno u h.1)
  simp [this]

/-- Witness for authMiddleware_vs_socketAuth at a store whose only user
has id 3 and a credential for id 7. -/
theorem authMiddleware_vs_socketAuth_witness :
    socketAuth ⟨[⟨3, "a@x", UserType.both⟩], [], [], [], []⟩
      (some (Cred.signed 7 false)) = AuthOutcome.unknownIdentity :=
  (authMiddleware_vs_socketAuth ⟨[⟨3, "a@x", UserType.both⟩], [], [], [], []⟩
    7 (by decide)).1

/-- A create-request body with the patient name missing. -/
def bodyNoName : CreateBody := ⟨none, some "O+", some 2, some "H", Urgency.high⟩

/-- A create-request body with a negative unit count. -/
def bodyNegUnits : CreateBody :=
  ⟨some "P", some "O+", some (-1), some "H", Urgency.high⟩

/-- C8, counterexample to the claim as stated: the socket create-request
entry point never rejects before persistence (a body with no patient name
reaches the insert and surfaces the storage rejection), and on the HTTP
entry point a negative unitsNeeded passes the pre-persistence check. -/
theorem createRequest_validation_counterexample :
    (createRequestSocket dbEmpty userD 1 0 bodyNoName).1 =
      CreateOutcome.storeError ∧
    (createRequestSocket dbEmpty userD 1 0 bodyNoName).1 ≠
      CreateOutcome.validationError ∧
    (createRequestHttp dbEmpty 1 1 0 bodyNegUnits).1 =
      CreateOutcome.storeError ∧
    (createRequestHttp dbEmpty 1 1 0 bodyNegUnits).1 ≠
      CreateOutcome.validationError := by
  decide

/-- C8, amended: the HTTP createRequest rejects with ValidationError
before any persistence call whenever patientName, bloodType, unitsNeeded
or hospital is JS-falsy (absent, empty string, or zero), leaving the store
untouched; negative unitsNeeded is not caught by this check; the socket
create-request entry point never returns ValidationError at all. -/
theorem createRequest_validation (db : DB) (uid rid now : Nat)
    (body : CreateBody)
    (h : jsFalsyStr body.patientName = true ∨
         jsFalsyStr body.bloodType = true ∨
         jsFalsyNum body.unitsNeeded = true ∨
         jsFalsyStr body.hospital = true) :
    createRequestHttp db uid rid now body =
      (CreateOutcome.validationError, db) ∧
    ∀ (su : SocketUser) (body2 : CreateBody),
      (createRequestSocket db su rid now body2).1 ≠
        CreateOutcome.validationError := by
  constructor
  · have hc : (jsFalsyStr body.patientName || jsFalsyStr body.bloodType ||
        jsFalsyNum body.unitsNeeded || jsFalsyStr body.hospital) = true := by
      rcases h with h | h | h | h <;> simp [h]
    simp [createRequestHttp, hc]
  · intro su body2
    unfold createRequestSocket
    cases insertBloodRequest db rid su.id now body2 with
    | ok db2 => simp
    | error e => simp

/-- Witness for createRequest_validation at the empty store and the body
with no patient name. -/
theorem createRequest_validation_witness :
    createRequestHttp dbEmpty 1 1 0 bodyNoName =
      (CreateOutcome.validationError, dbEmpty) :=
  (createRequest_validation dbEmpty 1 1 0 bodyNoName (Or.inl (by decide))).1

/-- A nonempty filter is not isEmpty: helper shared by guard proofs. -/
theorem filter_not_empty {α : Type} {p : α → Bool} {l : List α} {a : α}
    (ha : a ∈ l) (hpa : p a = true) : (l.filter p).isEmpty = false := by
  have hm : a ∈ l.filter p := List.mem_filter.mpr ⟨ha, hpa⟩
  cases hfe : l.filter p with
  | nil => rw [hfe] at hm; cases hm
  | cons b t => rfl

/-- A blood request in terminal state fulfilled, owned by user 1. -/
def reqFulfilled : BloodRequest :=
  ⟨1, 1, "P", "O+", 2, "H", Urgency.high, RequestStatus.fulfilled, 0⟩

/-- A store holding only the fulfilled request. -/
def dbTerminal : DB := ⟨[], [reqFulfilled], [], [], []⟩

/-- C4, counterexample to the claim as stated: updateRequestStatus moves a
request out of the terminal state fulfilled back to active; the only
guards are the status-value whitelist and ownership. -/
theorem terminal_state_counterexample :
    reqFulfilled.status = RequestStatus.fulfilled ∧
    (updateRequestStatus dbTerminal 1 1 "active").1 = UpdateOutcome.updated ∧
    (updateRequestStatus dbTerminal 1 1 "active").2.requests =
      [{ reqFulfilled with status := RequestStatus.active }] ∧
    (cancelRequest dbTerminal 1 1).1 = UpdateOutcome.updated ∧
    (cancelRequest dbTerminal 1 1).2.requests =
      [{ reqFulfilled with status := RequestStatus.cancelled }] := by
  decide

/-- C4, amended: ownership and a whitelisted status value are the only
guards of updateRequestStatus, and ownership the only guard of
cancelRequest: whatever the current status of an owned request, including
the terminal ones, the operation succeeds and overwrites the status. -/
theorem updateStatus_ownership_only (db : DB) (uid rid : Nat) (s : String)
    (st : RequestStatus) (hp : parseStatus s = some st)
    (hex : ∃ r ∈ db.requests, r.id = rid ∧ r.requesterId = uid) :
    (updateRequestStatus db uid rid s).1 = UpdateOutcome.updated ∧
    (∀ r2 ∈ (updateRequestStatus db uid rid s).2.requests,
       r2.id = rid → r2.requesterId = uid → r2.status = st) ∧
    (cancelRequest db uid rid).1 = UpdateOutcome.updated ∧
    (∀ r2 ∈ (cancelRequest db uid rid).2.requests,
       r2.id = rid → r2.requesterId = uid →
         r2.status = RequestStatus.cancelled) := by
  obtain ⟨r, hr, h1, h2⟩ := hex
  have hne : ((db.requests.filter fun r =>
      r.id = rid && r.requesterId = uid)).isEmpty = false :=
    filter_not_empty hr (by simp [h1, h2])
  have hmap : ∀ (st2 : RequestStatus),
      ∀ r2 ∈ db.requests.map (fun r =>
        if r.id = rid && r.requesterId = uid then { r with status := st2 }
        else r),
      r2.id = rid → r2.requesterId = uid → r2.status = st2 := by
    intro st2 r2 hr2 hid hu
    simp only [List.mem_map] at hr2
    obtain ⟨r0, hr0, rfl⟩ := hr2
    by_cases hc : (r0.id = rid && r0.requesterId = uid) = true
    · simp [hc]
    · rw [if_neg hc] at hid hu
      exact absurd (by simp [hid, hu]) hc
  refine ⟨?_, ?_, ?_, ?_⟩
  · simp [updateRequestStatus, hp, hne]
  · intro r2 hr2 hid hu
    simp only [updateRequestStatus, hp, hne] at hr2
    simp only [Bool.false_eq_true, if_false] at hr2
    exact hmap st r2 hr2 hid hu
  · simp [cancelRequest, hne]
  · intro r2 hr2 hid hu
    simp only [cancelRequest, hne] at hr2
    simp only [Bool.false_eq_true, if_false] at hr2
    exact hmap RequestStatus.cancelled r2 hr2 hid hu

/-- Witness for updateStatus_ownership_only: the owner of the fulfilled
request sets its status to expired. -/
theorem updateStatus_ownership_only_witness :
    (updateRequestStatus dbTerminal 1 1 "expired").1 =
      UpdateOutcome.updated :=
  (updateStatus_ownership_only dbTerminal 1 1 "expired"
    RequestStatus.expired rfl ⟨reqFulfilled, by decide⟩).1

/-- An active blood request with id 1 owned by user 1. -/
def reqActive1 : BloodRequest :=
  ⟨1, 1, "P", "O+", 2, "H", Urgency.high, RequestStatus.active, 0⟩

/-- A store with request 1 owned by user 1, no responses: user 2 is
neither requester nor responder. -/
def dbConv : DB :=
  ⟨[⟨1, "a@x", UserType.recipient⟩, ⟨2, "b@x", UserType.donor⟩],
   [reqActive1], [], [], []⟩

/-- A send-message payload from user 2 into the conversation of request 1. -/
def sendP : SendPayload := ⟨"request:1", "hello", 2, "donor", 1, 3⟩

/-- C3, counterexample to the claim as stated: in socketHandlers.ts user 2,
who is neither the requester of request 1 nor a responder to it, is
granted room membership with a history replay by join-conversation and has
a message persisted by send-message; no AccessDenied is produced. -/
theorem conversation_access_counterexample :
    reqActive1.requesterId ≠ 2 ∧ dbConv.responses = [] ∧
    joinConversationMain dbConv userD ⟨"request:1", 2, 1⟩ =
      JoinOutcome.joined [] ∧
    (sendMessageMain dbConv userD sendP 10).1 = SendOutcome.sent 10 ∧
    (sendMessageMain dbConv userD sendP 10).2.messages =
      [⟨10, "request:1", "hello", 2, "donor", 1, 3, false, none⟩] := by
  decide

/-- C3, amended: only the setupChatHandlers variant enforces conversation
access.  There, a user who is neither the requester nor a responder of any
status receives AccessDenied from join-conversation and send-message with
the store untouched; in socketHandlers.ts the same events check only that
the payload id equals the socket identity and always grant the join and
persist the message. -/
theorem conversation_access (db : DB) (su : SocketUser) (p : JoinPayload)
    (q : SendPayload) (hjp : su.id = p.userId) (hq : su.id = q.senderId)
    (hnoJ : ∀ r ∈ db.requests, r.id = p.requestId →
      r.requesterId ≠ p.userId ∧
        ∀ dr ∈ db.responses, dr.requestId = r.id → dr.donorId ≠ p.userId)
    (hnoQ : ∀ r ∈ db.requests, r.id = q.requestId →
      r.requesterId ≠ q.senderId ∧
        ∀ dr ∈ db.responses, dr.requestId = r.id → dr.donorId ≠ q.senderId)
    (hmsg : jsTrim q.message ≠ "") :
    joinConversationChat db su p = JoinOutcome.accessDenied ∧
    (∀ newId, sendMessageChat db su q newId = (SendOutcome.accessDenied, db)) ∧
    joinConversationMain db su p =
      JoinOutcome.joined (getChatHistory db p.conversationId) ∧
    (∀ newId, sendMessageMain db su q newId =
      (SendOutcome.sent newId, saveMessage db newId q q.message)) := by
  have hJ : (db.requests.any fun r =>
      r.id = p.requestId &&
      (r.requesterId = p.userId ||
       db.responses.any fun dr =>
        dr.requestId = r.id && dr.donorId = p.userId &&
        chatJoinResponderOk dr.status)) = false := by
    rw [List.any_eq_false]
    intro r hr
    simp only [Bool.and_eq_true, Bool.or_eq_true, List.any_eq_true,
      decide_eq_true_eq, not_and, not_or]
    intro hid
    refine ⟨(hnoJ r hr hid).1, ?_⟩
    rintro ⟨dr, hdr, ⟨hdr1, hdr2⟩, _⟩
    exact (hnoJ r hr hid).2 dr hdr hdr1 hdr2
  have hQ : (db.requests.any fun r =>
      r.id = q.requestId &&
      (r.requesterId = q.senderId ||
       db.responses.any fun dr =>
        dr.requestId = r.id && dr.donorId = q.senderId)) = false := by
    rw [List.any_eq_false]
    intro r hr
    simp only [Bool.and_eq_true, Bool.or_eq_true, List.any_eq_true,
      decide_eq_true_eq, not_and, not_or]
    intro hid
    refine ⟨(hnoQ r hr hid).1, ?_⟩
    rintro ⟨dr, hdr, hdr1, hdr2⟩
    exact (hnoQ r hr hid).2 dr hdr hdr1 hdr2
  refine ⟨?_, ?_, ?_, ?_⟩
  · simp [joinConversationChat, hjp, hJ]
  · intro newId
    simp [sendMessageChat, hq, hmsg, hQ]
  · simp [joinConversationMain, hjp]
  · intro newId
    simp [sendMessageMain, hq]

/-- Witness for conversation_access: user 2 against the store where
request 1 belongs to user 1 and nobody has responded. -/
theorem conversation_access_witness :
    joinConversationChat dbConv userD ⟨"request:1", 2, 1⟩ =
      JoinOutcome.accessDenied :=
  (conversation_access dbConv userD ⟨"request:1", 2, 1⟩ sendP rfl rfl
    (by decide) (by decide) (by decide)).1

/-- Message number i of the replay counterexample conversation. -/
def msgC7 (i : Nat) : ChatMessage := ⟨i, "c", "t", 1, "donor", 1, i, false, none⟩

/-- A store whose conversation c holds 101 messages with timestamps
0 through 100. -/
def dbHist : DB := ⟨[], [], [], [], (List.range 101).map msgC7⟩

/-- C7, counterexample to the claim as stated: with 101 persisted messages
the replay returns the 100 OLDEST timestamps 0..99 in ascending order; the
most recent message (timestamp 100) exists in the conversation but is not
replayed. -/
theorem chatHistory_replay_counterexample :
    (getChatHistory dbHist "c").map ChatMessage.timestamp =
      List.range 100 ∧
    (dbHist.messages.any fun m =>
      m.conversationId = "c" && m.timestamp = 100) = true ∧
    ((getChatHistory dbHist "c").any fun m => m.timestamp = 100) = false := by
  decide

/-- C7, amended: a successful join replays up to a fixed cap of persisted
messages of the conversation (100 in socketHandlers.ts, 200 in the
chatHandlers variant) ordered by timestamp ascending, and the replayed
messages are the OLDEST ones: every replayed timestamp is bounded by every
timestamp the cap cuts off. -/
theorem chatHistory_replay (db : DB) (cid : String) :
    getChatHistory db cid =
      ((db.messages.filter fun m =>
        m.conversationId = cid).insertionSort tsLE).take 100 ∧
    List.Pairwise (fun a b : ChatMessage => a.timestamp ≤ b.timestamp)
      (getChatHistory db cid) ∧
    (getChatHistory db cid).length ≤ 100 ∧
    (getChatHistoryChat db cid).length ≤ 200 ∧
    (∀ a ∈ getChatHistory db cid,
      ∀ b ∈ ((db.messages.filter fun m =>
          m.conversationId = cid).insertionSort tsLE).drop 100,
        a.timestamp ≤ b.timestamp) := by
  have hs : List.Sorted tsLE
      ((db.messages.filter fun m =>
        m.conversationId = cid).insertionSort tsLE) :=
    List.sorted_insertionSort tsLE _
  refine ⟨rfl, ?_, ?_, ?_, ?_⟩
  · exact List.Pairwise.sublist (List.take_sublist _ _) hs
  · exact List.length_take_le _ _
  · exact List.length_take_le _ _
  · have h2 : List.Pairwise tsLE
        (((db.messages.filter fun m =>
          m.conversationId = cid).insertionSort tsLE).take 100 ++
         ((db.messages.filter fun m =>
          m.conversationId = cid).insertionSort tsLE).drop 100) := by
      rw [List.take_append_drop]
      exact hs
    exact (List.pairwise_append.mp h2).2.2

/-- Witness for chatHistory_replay at the 101-message store. -/
theorem chatHistory_replay_witness :
    (getChatHistory dbHist "c").length ≤ 100 :=
  (chatHistory_replay dbHist "c").2.2.1

/-- At most one donor_responses row per (request_id, donor_id) pair: the
storage uniqueness invariant. -/
def pairUnique (l : List DonorResponse) : Prop :=
  List.Pairwise (fun a b =>
    ¬(a.requestId = b.requestId ∧ a.donorId = b.donorId)) l

/-- An all-false predicate filters to the empty list: helper shared by
guard proofs. -/
theorem filter_empty_of {α : Type} {p : α → Bool} {l : List α}
    (h : ∀ a ∈ l, ¬ p a = true) : (l.filter p).isEmpty = true := by
  induction l with
  | nil => rfl
  | cons a t ih =>
    have ha : p a = false :=
      Bool.eq_false_iff.mpr (h a (List.mem_cons_self a t))
    rw [List.filter_cons, ha]
    simp only [Bool.false_eq_true, if_false]
    exact ih fun b hb => h b (List.mem_cons_of_mem a hb)

/-- Appending a row whose pair clashes with no existing row preserves the
uniqueness invariant. -/
theorem pairUnique_append {l : List DonorResponse} {x : DonorResponse}
    (hl : pairUnique l)
    (hx : ∀ dr ∈ l, ¬(dr.requestId = x.requestId ∧ dr.donorId = x.donorId)) :
    pairUnique (l ++ [x]) := by
  unfold pairUnique at *
  rw [List.pairwise_append]
  refine ⟨hl, List.pairwise_singleton _ _, ?_⟩
  intro a ha b hb
  rcases List.mem_singleton.mp hb with rfl
  exact hx a ha

/-- A successful insertDonorResponse preserves the uniqueness invariant:
the insert only goes through when no row with the same pair exists. -/
theorem insertDonorResponse_pairUnique (db : DB)
    (respId requestId donorId : Nat) (msg : String)
    (h : pairUnique db.responses) :
    ∀ db2, insertDonorResponse db respId requestId donorId msg =
      Except.ok db2 → pairUnique db2.responses := by
  intro db2 hok
  unfold insertDonorResponse at hok
  by_cases hc : (db.responses.any fun dr =>
      dr.requestId = requestId && dr.donorId = donorId) = true
  · rw [if_pos hc] at hok
    cases hok
  · rw [if_neg hc] at hok
    cases hok
    apply pairUnique_append h
    intro dr hdr hcontra
    apply hc
    rw [List.any_eq_true]
    exact ⟨dr, hdr, by simp [hcontra.1, hcontra.2]⟩

/-- C2, amended: both entry points fail with the 404 error when no active
request with that id exists and never create a second row for an existing
(requestId, donor) pair; but only the HTTP entry point classifies the
duplicate as DuplicateResponse, while the socket donor-response handler
has no duplicate check and surfaces the rejection of the storage
uniqueness constraint as the generic response-error. -/
theorem respondToRequest_guards (db : DB) (su : SocketUser)
    (donorId requestId respId : Nat) (msg : String) :
    ((∀ r ∈ db.requests, r.id = requestId →
        r.status ≠ RequestStatus.active) →
      respondToRequestHttp db donorId requestId respId msg =
        (RespondOutcome.notFound, db) ∧
      donorResponseSocket db su requestId respId msg =
        (RespondOutcome.notFound, db)) ∧
    ((∃ r ∈ db.requests, r.id = requestId ∧
        r.status = RequestStatus.active) →
     (∃ dr ∈ db.responses, dr.requestId = requestId ∧
        dr.donorId = donorId) →
      respondToRequestHttp db donorId requestId respId msg =
        (RespondOutcome.duplicateResponse, db)) ∧
    ((∃ r ∈ db.requests, r.id = requestId ∧
        r.status = RequestStatus.active) →
     (∃ dr ∈ db.responses, dr.requestId = requestId ∧
        dr.donorId = su.id) →
      donorResponseSocket db su requestId respId msg =
        (RespondOutcome.storeError, db)) ∧
    (pairUnique db.responses →
      pairUnique
        (respondToRequestHttp db donorId requestId respId msg).2.responses ∧
      pairUnique
        (donorResponseSocket db su requestId respId msg).2.responses) := by
  refine ⟨?_, ?_, ?_, ?_⟩
  · intro hno
    have hemp : ((db.requests.filter fun r =>
        r.id = requestId && r.status = RequestStatus.active)).isEmpty
          = true := by
      apply filter_empty_of
      intro r hr hcontra
      simp only [Bool.and_eq_true, decide_eq_true_eq] at hcontra
      exact hno r hr hcontra.1 hcontra.2
    constructor
    · simp [respondToRequestHttp, hemp]
    · simp [donorResponseSocket, hemp]
  · rintro ⟨r, hr, hid, hst⟩ ⟨dr, hdr, hdid, hdonor⟩
    have hne : ((db.requests.filter fun r =>
        r.id = requestId && r.status = RequestStatus.active)).isEmpty
          = false :=
      filter_not_empty hr (by simp [hid, hst])
    have hne2 : ((db.responses.filter fun dr =>
        dr.requestId = requestId && dr.donorId = donorId)).isEmpty
          = false :=
      filter_not_empty hdr (by simp [hdid, hdonor])
    simp [respondToRequestHttp, hne, hne2]
  · rintro ⟨r, hr, hid, hst⟩ ⟨dr, hdr, hdid, hdonor⟩
    have hne : ((db.requests.filter fun r =>
        r.id = requestId && r.status = RequestStatus.active)).isEmpty
          = false :=
      filter_not_empty hr (by simp [hid, hst])
    have hany : (db.responses.any fun dr =>
        dr.requestId = requestId && dr.donorId = su.id) = true := by
      rw [List.any_eq_true]
      exact ⟨dr, hdr, by simp [hdid, hdonor]⟩
    simp [donorResponseSocket, hne, insertDonorResponse, hany]
  · intro h
    constructor
    · unfold respondToRequestHttp
      by_cases h1 : ((db.requests.filter fun r =>
          r.id = requestId && r.status = RequestStatus.active)).isEmpty
            = true
      · simpa [h1] using h
      · rw [Bool.not_eq_true] at h1
        by_cases h2 : ((db.responses.filter fun dr =>
            dr.requestId = requestId && dr.donorId = donorId)).isEmpty
              = true
        · simp only [h1, Bool.false_eq_true, if_false, h2, Bool.not_true,
            if_false]
          cases hins : insertDonorResponse db respId requestId donorId msg
            with
          | ok db2 =>
            simpa using
              insertDonorResponse_pairUnique db respId requestId donorId
                msg h db2 hins
          | error e => simpa using h
        · rw [Bool.not_eq_true] at h2
          simpa [h1, h2] using h
    · unfold donorResponseSocket
      by_cases h1 : ((db.requests.filter fun r =>
          r.id = requestId && r.status = RequestStatus.active)).isEmpty
            = true
      · simpa [h1] using h
      · rw [Bool.not_eq_true] at h1
        simp only [h1, Bool.false_eq_true, if_false]
        cases hins : insertDonorResponse db respId requestId su.id msg with
        | ok db2 =>
          simpa using
            insertDonorResponse_pairUnique db respId requestId su.id msg h
              db2 hins
        | error e => simpa using h

/-- The existing pending response of donor 2 to request 1. -/
def respPending12 : DonorResponse := ⟨1, 1, 2, "m", ResponseStatus.pending⟩

/-- A store where donor 2 already responded to active request 1. -/
def dbResp : DB :=
  ⟨[⟨1, "a@x", UserType.recipient⟩, ⟨2, "b@x", UserType.donor⟩],
   [reqActive1], [respPending12], [], []⟩

/-- C2, counterexample to the claim as stated: when donor 2 responds a
second time through the socket entry point, the failure surfaced is the
generic response-error of the storage rejection, not DuplicateResponse;
the HTTP entry point does classify it as DuplicateResponse. -/
theorem respond_duplicate_counterexample :
    (donorResponseSocket dbResp userD 1 5 "again").1 =
      RespondOutcome.storeError ∧
    (donorResponseSocket dbResp userD 1 5 "again").1 ≠
      RespondOutcome.duplicateResponse ∧
    (donorResponseSocket dbResp userD 1 5 "again").2 = dbResp ∧
    (respondToRequestHttp dbResp 2 1 5 "again").1 =
      RespondOutcome.duplicateResponse := by
  decide

/-- Witness for respondToRequest_guards: the duplicate branch on the
store where donor 2 already responded to request 1. -/
theorem respondToRequest_guards_witness :
    respondToRequestHttp dbResp 2 1 5 "again" =
      (RespondOutcome.duplicateResponse, dbResp) :=
  (respondToRequest_guards dbResp userD 2 1 5 "again").2.1
    ⟨reqActive1, by decide, rfl, rfl⟩ ⟨respPending12, by decide, rfl, rfl⟩

/-- An all-false predicate filters to the literal empty list. -/
theorem filter_eq_nil_of {α : Type} {p : α → Bool} {l : List α}
    (h : ∀ a ∈ l, ¬ p a = true) : l.filter p = [] := by
  induction l with
  | nil => rfl
  | cons a t ih =>
    have ha : p a = false :=
      Bool.eq_false_iff.mpr (h a (List.mem_cons_self a t))
    rw [List.filter_cons, ha]
    simp only [Bool.false_eq_true, if_false]
    exact ih fun b hb => h b (List.mem_cons_of_mem a hb)

/-- A filter that is not isEmpty holds a member satisfying the predicate. -/
theorem exists_of_filter_not_empty {α : Type} {p : α → Bool} {l : List α}
    (h : ¬ (l.filter p).isEmpty = true) : ∃ a ∈ l, p a = true := by
  cases hfe : l.filter p with
  | nil => exact absurd (by rw [hfe]; rfl) h
  | cons a t =>
    have hm : a ∈ l.filter p := by
      rw [hfe]; exact List.mem_cons_self a t
    exact ⟨a, (List.mem_filter.mp hm).1, (List.mem_filter.mp hm).2⟩

/-- C5: with both ids present, selectDonor fails with the 404
not-found-or-unauthorized response whenever the caller does not own the
request, with the invalid-state response whenever every owned match is
not active, and with the invalid-donor response whenever no pending
response from that donor exists; each failure leaves the store
untouched. -/
theorem selectDonor_guards (db : DB) (userId requestId donorId : Nat)
    (hu : userId ≠ 0) (hd : donorId ≠ 0) :
    ((¬ ∃ r ∈ db.requests, r.id = requestId ∧ r.requesterId = userId) →
      selectDonor db userId requestId donorId =
        (SelectOutcome.notFoundOrUnauthorized, db)) ∧
    ((∃ r ∈ db.requests, r.id = requestId ∧ r.requesterId = userId) →
     (∀ r ∈ db.requests, r.id = requestId → r.requesterId = userId →
        r.status ≠ RequestStatus.active) →
      selectDonor db userId requestId donorId =
        (SelectOutcome.invalidState, db)) ∧
    ((∃ r ∈ db.requests, r.id = requestId ∧ r.requesterId = userId) →
     (∀ r ∈ db.requests, r.id = requestId → r.requesterId = userId →
        r.status = RequestStatus.active) →
     (¬ ∃ dr ∈ db.responses, dr.requestId = requestId ∧
        dr.donorId = donorId ∧ dr.status = ResponseStatus.pending) →
      selectDonor db userId requestId donorId =
        (SelectOutcome.invalidDonor, db)) := by
  have h0 : (userId = 0 || donorId = 0) = false := by
    simp [hu, hd]
  refine ⟨?_, ?_, ?_⟩
  · intro hno
    have hfil : db.requests.filter (fun r =>
        r.id = requestId && r.requesterId = userId) = [] := by
      apply filter_eq_nil_of
      intro r hr hcontra
      simp only [Bool.and_eq_true, decide_eq_true_eq] at hcontra
      exact hno ⟨r, hr, hcontra.1, hcontra.2⟩
    simp [selectDonor, h0, hfil]
  · rintro ⟨r0, hr0, hid0, hreq0⟩ hall
    cases hfil : db.requests.filter (fun r =>
        r.id = requestId && r.requesterId = userId) with
    | nil =>
      exfalso
      have : r0 ∈ db.requests.filter (fun r =>
          r.id = requestId && r.requesterId = userId) :=
        List.mem_filter.mpr ⟨hr0, by simp [hid0, hreq0]⟩
      rw [hfil] at this
      cases this
    | cons r t =>
      have hm : r ∈ db.requests.filter (fun r =>
          r.id = requestId && r.requesterId = userId) := by
        rw [hfil]; exact List.mem_cons_self r t
      have hrprops := List.mem_filter.mp hm
      have hrid : r.id = requestId := by
        have := hrprops.2
        simp only [Bool.and_eq_true, decide_eq_true_eq] at this
        exact this.1
      have hrreq : r.requesterId = userId := by
        have := hrprops.2
        simp only [Bool.and_eq_true, decide_eq_true_eq] at this
        exact this.2
      have hst : r.status ≠ RequestStatus.active :=
        hall r hrprops.1 hrid hrreq
      simp [selectDonor, h0, hfil, hst]
  · rintro ⟨r0, hr0, hid0, hreq0⟩ hall hnopending
    cases hfil : db.requests.filter (fun r =>
        r.id = requestId && r.requesterId = userId) with
    | nil =>
      exfalso
      have : r0 ∈ db.requests.filter (fun r =>
          r.id = requestId && r.requesterId = userId) :=
        List.mem_filter.mpr ⟨hr0, by simp [hid0, hreq0]⟩
      rw [hfil] at this
      cases this
    | cons r t =>
      have hm : r ∈ db.requests.filter (fun r =>
          r.id = requestId && r.requesterId = userId) := by
        rw [hfil]; exact List.mem_cons_self r t
      have hrprops := List.mem_filter.mp hm
      have hrid : r.id = requestId := by
        have := hrprops.2
        simp only [Bool.and_eq_true, decide_eq_true_eq] at this
        exact this.1
      have hrreq : r.requesterId = userId := by
        have := hrprops.2
        simp only [Bool.and_eq_true, decide_eq_true_eq] at this
        exact this.2
      have hst : r.status = RequestStatus.active :=
        hall r hrprops.1 hrid hrreq
      have hemp : ((db.responses.filter fun dr =>
          dr.requestId = requestId && dr.donorId = donorId &&
          dr.status = ResponseStatus.pending &&
          db.users.any fun u =>
            u.id = dr.donorId &&
            (u.userType = UserType.donor ||
             u.userType = UserType.both))).isEmpty = true := by
        apply filter_empty_of
        intro dr hdr hcontra
        simp only [Bool.and_eq_true, decide_eq_true_eq] at hcontra
        exact hnopending ⟨dr, hdr, hcontra.1.1.1, hcontra.1.1.2, hcontra.1.2⟩
      simp [selectDonor, h0, hfil, hst, hemp]

/-- A store for the selectDonor guard witness: user 2 does not own
request 1. -/
def dbGuard : DB :=
  ⟨[⟨1, "a@x", UserType.recipient⟩, ⟨2, "b@x", UserType.donor⟩],
   [reqActive1], [], [], []⟩

/-- Witness for selectDonor_guards: user 2 attempts to select donor 3 on
request 1 owned by user 1 and receives the 404 branch. -/
theorem selectDonor_guards_witness :
    selectDonor dbGuard 2 1 3 = (SelectOutcome.notFoundOrUnauthorized,
      dbGuard) :=
  (selectDonor_guards dbGuard 2 1 3 (by decide) (by decide)).1 (by decide)

/-- applySelection never yields an accepted response to the request from a
row that is not the chosen pair, provided that row was not already
accepted. -/
theorem applySelection_not_accepted {rid did : Nat} {a : DonorResponse}
    (hnp : ¬(a.requestId = rid ∧ a.donorId = did))
    (hacc : a.requestId = rid → a.status ≠ ResponseStatus.accepted) :
    ((applySelection rid did a).requestId = rid &&
      (applySelection rid did a).status = ResponseStatus.accepted) =
      false := by
  unfold applySelection
  by_cases h1 : (a.requestId = rid && a.donorId = did) = true
  · exfalso
    apply hnp
    simpa only [Bool.and_eq_true, decide_eq_true_eq] using h1
  · rw [if_neg h1]
    by_cases h2 : (a.requestId = rid && a.donorId ≠ did &&
        a.status = ResponseStatus.pending) = true
    · rw [if_pos h2]
      simp
    · rw [if_neg h2]
      by_cases h3 : a.requestId = rid
      · have hne := hacc h3
        simp [h3, hne]
      · simp [h3]

/-- After applySelection no row of the request carries an accepted status
when no row of the chosen pair was present and none was accepted. -/
theorem countP_applySelection_zero (rid did : Nat) :
    ∀ (l : List DonorResponse),
    (∀ dr ∈ l, ¬(dr.requestId = rid ∧ dr.donorId = did)) →
    (∀ dr ∈ l, dr.requestId = rid → dr.status ≠ ResponseStatus.accepted) →
    (l.map (applySelection rid did)).countP
      (fun dr => dr.requestId = rid &&
        dr.status = ResponseStatus.accepted) = 0 := by
  intro l
  induction l with
  | nil => intro _ _; rfl
  | cons a t ih =>
    intro hpair hacc
    rw [List.map_cons, List.countP_cons]
    have hhead := applySelection_not_accepted
      (hpair a (List.mem_cons_self a t))
      (hacc a (List.mem_cons_self a t))
    rw [hhead]
    simp only [Bool.false_eq_true, if_false, Nat.add_zero]
    exact ih (fun b hb => hpair b (List.mem_cons_of_mem a hb))
      (fun b hb => hacc b (List.mem_cons_of_mem a hb))

/-- After applySelection exactly one row of the request carries an
accepted status: the unique row of the chosen pair. -/
theorem countP_applySelection_one (rid did : Nat) :
    ∀ (l : List DonorResponse),
    List.Pairwise (fun a b =>
      ¬(a.requestId = b.requestId ∧ a.donorId = b.donorId)) l →
    (∀ dr ∈ l, dr.requestId = rid → dr.status ≠ ResponseStatus.accepted) →
    (∃ dr ∈ l, dr.requestId = rid ∧ dr.donorId = did) →
    (l.map (applySelection rid did)).countP
      (fun dr => dr.requestId = rid &&
        dr.status = ResponseStatus.accepted) = 1 := by
  intro l
  induction l with
  | nil =>
    rintro _ _ ⟨dr, hdr, _⟩
    cases hdr
  | cons a t ih =>
    rintro hpair hacc ⟨dr, hdr, hdid, hdonor⟩
    rw [List.map_cons, List.countP_cons]
    rcases List.mem_cons.mp hdr with rfl | hmem
    · have hsel : applySelection rid did dr =
          { dr with status := ResponseStatus.accepted } := by
        unfold applySelection
        rw [if_pos (by simp [hdid, hdonor])]
      have hhead : ((applySelection rid did dr).requestId = rid &&
          (applySelection rid did dr).status =
            ResponseStatus.accepted) = true := by
        rw [hsel]
        simp [hdid]
      rw [hhead]
      have hzero : (t.map (applySelection rid did)).countP
          (fun dr => dr.requestId = rid &&
            dr.status = ResponseStatus.accepted) = 0 := by
        apply countP_applySelection_zero
        · intro b hb hcontra
          exact List.rel_of_pairwise_cons hpair hb
            ⟨hdid.trans hcontra.1.symm, hdonor.trans hcontra.2.symm⟩
        · exact fun b hb => hacc b (List.mem_cons_of_mem dr hb)
      rw [hzero]
      simp
    · have hnp : ¬(a.requestId = rid ∧ a.donorId = did) := by
        rintro ⟨h1, h2⟩
        exact List.rel_of_pairwise_cons hpair hmem
          ⟨h1.trans hdid.symm, h2.trans hdonor.symm⟩
      have hhead := applySelection_not_accepted hnp
        (hacc a (List.mem_cons_self a t))
      rw [hhead]
      simp only [Bool.false_eq_true, if_false, Nat.add_zero]
      exact ih hpair.of_cons
        (fun b hb => hacc b (List.mem_cons_of_mem a hb))
        ⟨dr, hmem, hdid, hdonor⟩

/-- After applySelection every row of the request not belonging to the
chosen donor is rejected, provided it was not already accepted. -/
theorem applySelection_other_rejected {rid did : Nat} {a : DonorResponse}
    (hacc : a.requestId = rid → a.status ≠ ResponseStatus.accepted)
    (hrid : (applySelection rid did a).requestId = rid)
    (hdonor : (applySelection rid did a).donorId ≠ did) :
    (applySelection rid did a).status = ResponseStatus.rejected := by
  have hfields : (applySelection rid did a).requestId = a.requestId ∧
      (applySelection rid did a).donorId = a.donorId := by
    unfold applySelection
    by_cases h1 : (a.requestId = rid && a.donorId = did) = true
    · rw [if_pos h1]; exact ⟨rfl, rfl⟩
    · rw [if_neg h1]
      by_cases h2 : (a.requestId = rid && a.donorId ≠ did &&
          a.status = ResponseStatus.pending) = true
      · rw [if_pos h2]; exact ⟨rfl, rfl⟩
      · rw [if_neg h2]; exact ⟨rfl, rfl⟩
  have harid : a.requestId = rid := hfields.1 ▸ hrid
  have hadonor : a.donorId ≠ did := hfields.2 ▸ hdonor
  unfold applySelection
  rw [if_neg (by simp [hadonor])]
  by_cases h2 : (a.requestId = rid && a.donorId ≠ did &&
      a.status = ResponseStatus.pending) = true
  · rw [if_pos h2]
  · rw [if_neg h2]
    have hnp : a.status ≠ ResponseStatus.pending := by
      intro hp
      exact h2 (by simp [harid, hadonor, hp])
    cases hs : a.status with
    | pending => exact absurd hs hnp
    | accepted => exact absurd hs (hacc harid)
    | rejected => rfl

/-- C1, amended: when (requestId, donorId) pairs are unique and the
request has no accepted response and no donation row yet, a successful
selectDonor leaves exactly one accepted response for the request, every
other response to it rejected, the request fulfilled, and exactly one
donation row for it; any failing selectDonor leaves the store untouched,
so the four effects apply together or not at all.  The two pre-state
conditions are needed: a fulfilled request re-activated through the
unguarded updateRequestStatus admits a second successful selection that
leaves two accepted responses and two donation rows (see the
double-selection trace below). -/
theorem selectDonor_success (db : DB) (userId requestId donorId : Nat)
    (hpair : pairUnique db.responses)
    (hacc : ∀ dr ∈ db.responses, dr.requestId = requestId →
      dr.status ≠ ResponseStatus.accepted)
    (hdon : ∀ d ∈ db.donations, d.requestId ≠ requestId) :
    ((selectDonor db userId requestId donorId).1 =
        SelectOutcome.selected →
      ((selectDonor db userId requestId donorId).2.responses.countP
         (fun dr => dr.requestId = requestId &&
           dr.status = ResponseStatus.accepted) = 1 ∧
       (∀ dr ∈ (selectDonor db userId requestId donorId).2.responses,
          dr.requestId = requestId → dr.donorId ≠ donorId →
            dr.status = ResponseStatus.rejected) ∧
       (∀ r ∈ (selectDonor db userId requestId donorId).2.requests,
          r.id = requestId → r.status = RequestStatus.fulfilled) ∧
       (∃ r ∈ (selectDonor db userId requestId donorId).2.requests,
          r.id = requestId ∧ r.status = RequestStatus.fulfilled) ∧
       (selectDonor db userId requestId donorId).2.donations.countP
         (fun d => d.requestId = requestId) = 1)) ∧
    ((selectDonor db userId requestId donorId).1 ≠
        SelectOutcome.selected →
      (selectDonor db userId requestId donorId).2 = db) := by
  by_cases h0 : (userId = 0 || donorId = 0) = true
  · have hres : selectDonor db userId requestId donorId =
        (SelectOutcome.missingIds, db) := by
      simp [selectDonor, h0]
    rw [hres]
    exact ⟨fun h => absurd h (by simp), fun _ => rfl⟩
  · have h0f : (userId = 0 || donorId = 0) = false :=
      Bool.eq_false_iff.mpr h0
    cases hfil : db.requests.filter (fun r =>
        r.id = requestId && r.requesterId = userId) with
    | nil =>
      have hres : selectDonor db userId requestId donorId =
          (SelectOutcome.notFoundOrUnauthorized, db) := by
        simp [selectDonor, h0f, hfil]
      rw [hres]
      exact ⟨fun h => absurd h (by simp), fun _ => rfl⟩
    | cons r t =>
      by_cases hst : r.status = RequestStatus.active
      · by_cases hemp : ((db.responses.filter fun dr =>
            dr.requestId = requestId && dr.donorId = donorId &&
            dr.status = ResponseStatus.pending &&
            db.users.any fun u =>
              u.id = dr.donorId &&
              (u.userType = UserType.donor ||
               u.userType = UserType.both))).isEmpty = true
        · have hres : selectDonor db userId requestId donorId =
              (SelectOutcome.invalidDonor, db) := by
            simp [selectDonor, h0f, hfil, hst, hemp]
          rw [hres]
          exact ⟨fun h => absurd h (by simp), fun _ => rfl⟩
        · have hres : selectDonor db userId requestId donorId =
              (SelectOutcome.selected,
               { db with
                 responses :=
                   db.responses.map (applySelection requestId donorId),
                 requests := db.requests.map fun r2 =>
                  if r2.id = requestId then
                    { r2 with status := RequestStatus.fulfilled }
                  else r2,
                 donations := db.donations ++
                   [⟨requestId, donorId, "scheduled"⟩] }) := by
            simp [selectDonor, h0f, hfil, hst, hemp]
          rw [hres]
          constructor
          · intro _
            obtain ⟨dr0, hdr0, hp0⟩ := exists_of_filter_not_empty hemp
            simp only [Bool.and_eq_true, decide_eq_true_eq] at hp0
            refine ⟨?_, ?_, ?_, ?_, ?_⟩
            · exact countP_applySelection_one requestId donorId
                db.responses hpair hacc
                ⟨dr0, hdr0, hp0.1.1.1, hp0.1.1.2⟩
            · intro dr hdr hrid hdonor
              simp only [List.mem_map] at hdr
              obtain ⟨dr1, hdr1, rfl⟩ := hdr
              exact applySelection_other_rejected
                (hacc dr1 hdr1) hrid hdonor
            · intro r2 hr2 hid2
              simp only [List.mem_map] at hr2
              obtain ⟨r0, hr0, rfl⟩ := hr2
              by_cases hc : r0.id = requestId
              · simp [hc]
              · rw [if_neg (by simpa using hc)] at hid2 ⊢
                exact absurd hid2 hc
            · have hrmem : r ∈ db.requests.filter (fun r =>
                  r.id = requestId && r.requesterId = userId) := by
                rw [hfil]; exact List.mem_cons_self r t
              have hrin := List.mem_filter.mp hrmem
              have hrid : r.id = requestId := by
                have := hrin.2
                simp only [Bool.and_eq_true, decide_eq_true_eq] at this
                exact this.1
              refine ⟨{ r with status := RequestStatus.fulfilled }, ?_, by
                simp [hrid], rfl⟩
              have := List.mem_map_of_mem (fun r2 =>
                if r2.id = requestId then
                  { r2 with status := RequestStatus.fulfilled }
                else r2) hrin.1
              simpa [hrid] using this
            · rw [List.countP_append]
              have hz : db.donations.countP
                  (fun d => d.requestId = requestId) = 0 := by
                rw [List.countP_eq_zero]
                intro d hd
                simp only [decide_eq_true_eq]
                exact hdon d hd
              rw [hz]
              simp
          · intro h
            exact absurd rfl h
      · have hres : selectDonor db userId requestId donorId =
            (SelectOutcome.invalidState, db) := by
          simp [selectDonor, h0f, hfil, hst]
        rw [hres]
        exact ⟨fun h => absurd h (by simp), fun _ => rfl⟩

/-- A store ready for a successful selection: donor 2 has the only
pending response to active request 1 owned by user 1. -/
def dbSelect : DB :=
  ⟨[⟨1, "a@x", UserType.recipient⟩, ⟨2, "b@x", UserType.donor⟩],
   [reqActive1], [respPending12], [], []⟩

/-- Witness for selectDonor_success: user 1 selects donor 2 on request 1
and exactly one accepted response results. -/
theorem selectDonor_success_witness :
    (selectDonor dbSelect 1 1 2).2.responses.countP
      (fun dr => dr.requestId = 1 &&
        dr.status = ResponseStatus.accepted) = 1 :=
  ((selectDonor_success dbSelect 1 1 2 (by unfold pairUnique; decide)
    (by decide) (by decide)).1 (by decide)).1

/-- Start of the double-selection trace: requester 1 owns active
request 1, donors 2 and 3 exist, donor 2 has the only pending response. -/
def dbChain0 : DB :=
  ⟨[⟨1, "a@x", UserType.recipient⟩, ⟨2, "b@x", UserType.donor⟩,
    ⟨3, "c@x", UserType.donor⟩],
   [reqActive1], [respPending12], [], []⟩

/-- After requester 1 selects donor 2 on request 1. -/
def dbChain1 : DB := (selectDonor dbChain0 1 1 2).2

/-- After requester 1 moves the fulfilled request 1 back to active
through updateRequestStatus, which has no terminal-state guard. -/
def dbChain2 : DB := (updateRequestStatus dbChain1 1 1 "active").2

/-- After donor 3 responds to the re-activated request 1. -/
def dbChain3 : DB := (respondToRequestHttp dbChain2 3 1 7 "m").2

/-- C1, counterexample to the claim as stated: every step of the trace is
a successful operation of the embedded controller, and after the second
successful selectDonor the store holds TWO accepted responses and TWO
donation rows for request 1 — the reject-update of the transaction only
touches pending rows, so the acceptance of donor 2 survives, and the
donations table has no uniqueness constraint. -/
theorem selectDonor_double_counterexample :
    (selectDonor dbChain0 1 1 2).1 = SelectOutcome.selected ∧
    (updateRequestStatus dbChain1 1 1 "active").1 =
      UpdateOutcome.updated ∧
    (respondToRequestHttp dbChain2 3 1 7 "m").1 =
      RespondOutcome.responded 7 ∧
    (selectDonor dbChain3 1 1 3).1 = SelectOutcome.selected ∧
    (selectDonor dbChain3 1 1 3).2.responses.countP
      (fun dr => dr.requestId = 1 &&
        dr.status = ResponseStatus.accepted) = 2 ∧
    (selectDonor dbChain3 1 1 3).2.donations.countP
      (fun d => d.requestId = 1) = 2 := by
  decide

end LifeStream
